import Mathlib

set_option maxHeartbeats 1000000

namespace Spec2Proof

/-- Substring test on character lists: does the second list contain `pat` as a
contiguous run?  Mirrors Python's `pat in line` on strings. -/
def hasSub (pat : List Char) : List Char → Bool
  | [] => pat.isEmpty
  | c :: cs => pat.isPrefixOf (c :: cs) || hasSub pat cs

/-- Substring containment on strings, used to state that an error message
contains a given token. -/
def strContains (s sub : String) : Prop :=
  ∃ l r : List Char, s.data = l ++ sub.data ++ r

/-- Python's `text.split('\n')` on the character list of `text`: the pieces
between newline characters, in order, empty pieces kept. -/
def splitOnNl : List Char → List (List Char)
  | [] => [[]]
  | c :: cs =>
      match splitOnNl cs with
      | [] => [[c]]
      | l :: ls => if c = '\n' then [] :: l :: ls else (c :: l) :: ls

/-- Python's `line.strip()`: drop whitespace from both ends. -/
def pyStrip (cs : List Char) : List Char :=
  ((cs.dropWhile Char.isWhitespace).reverse.dropWhile Char.isWhitespace).reverse

/-- Python's `text.lower()` (ASCII case folding). -/
def pyLower (cs : List Char) : List Char := cs.map Char.toLower

namespace Terraform

/-- Value held by a result's `stdout` field: the raw text captured from the
process, or the post-processed value that `show`/`output` (decoded JSON) and
`state_list`/`workspace_list` (line lists) write back into the field after
construction.  `J` is the type of decoded JSON documents; the decoder itself
(`json.loads`) is passed in as a function. -/
inductive Stdout (J : Type) where
  | text (s : String)
  | json (v : J)
  | lines (xs : List String)
deriving DecidableEq

/-- Result record of one Terraform command execution (`TerraformResult` in
`src/terraform/cli.py`).  Durations are modelled in whole seconds. -/
structure TerraformResult (J : Type) where
  success : Bool
  return_code : Int
  stdout : Stdout J
  stderr : String
  command : String
  duration : Int
deriving DecidableEq

/-- Behaviour of one spawned external process: it either finishes after
`elapsed` seconds with the given exit code and captured streams, or the spawn
machinery raises with a message.  `_run_command` observes the elapsed time only
through its `asyncio.wait_for` timeout. -/
inductive ProcOutcome where
  | completed (elapsed : Int) (rc : Int) (out err : String)
  | raised (msg : String)
deriving DecidableEq

/-- Python's `' '.join(full_command)`. -/
def joinCmd (words : List String) : String := String.intercalate " " words

/-- Embedding of `TerraformCLI._run_command`: build the result record from the
process outcome.  A process that takes longer than `timeout` hits the
`asyncio.TimeoutError` branch and yields the synthetic timed-out record with
`success=False`, `return_code=-1` and the "timed out" message; any other
exception yields the generic failure record. -/
def run_command (J : Type) (terraform_path : String) (command : List String)
    (timeout : Int) (p : ProcOutcome) : TerraformResult J :=
  let full_command := terraform_path :: command
  match p with
  | .completed elapsed rc out err =>
      if timeout < elapsed then
        { success := false, return_code := -1, stdout := .text "",
          stderr := "Command timed out after " ++ toString timeout ++ " seconds",
          command := joinCmd full_command, duration := timeout }
      else
        { success := rc == 0, return_code := rc, stdout := .text out,
          stderr := err, command := joinCmd full_command, duration := elapsed }
  | .raised msg =>
      { success := false, return_code := -1, stdout := .text "", stderr := msg,
        command := joinCmd full_command, duration := 0 }

/-- Embedding of the in-place update at the end of `TerraformCLI.show` and
`TerraformCLI.output`: `result.stdout = json.loads(result.stdout)` guarded by
`result.success`, leaving the record unchanged when decoding raises
`JSONDecodeError`.  `decode` stands for `json.loads`.  The non-text branch is
unreachable for records freshly produced by `_run_command` and is modelled as
the identity. -/
def json_post (J : Type) (decode : String → Option J) (r : TerraformResult J) :
    TerraformResult J :=
  if r.success then
    match r.stdout with
    | .text s =>
        match decode s with
        | some v => { r with stdout := .json v }
        | none => r
    | _ => r
  else r

/-- Line post-processing of `TerraformCLI.state_list`: strip every stdout line
and keep the non-empty ones. -/
def state_list_lines (s : String) : List String :=
  ((((splitOnNl s.data).map pyStrip).filter (fun l => l ≠ [])).map
    (fun l => String.mk l))

/-- Embedding of the in-place update at the end of `TerraformCLI.state_list`:
`result.stdout = resources` guarded by `result.success`.  The non-text branch
is unreachable for records freshly produced by `_run_command` and is modelled
as the identity. -/
def state_list_post (J : Type) (r : TerraformResult J) : TerraformResult J :=
  if r.success then
    match r.stdout with
    | .text s => { r with stdout := .lines (state_list_lines s) }
    | _ => r
  else r

/-- Line post-processing of `TerraformCLI.workspace_list`: strip lines, drop
empty ones, and rewrite the current workspace marker `* name` to
`name (current)`. -/
def workspace_list_lines (s : String) : List String :=
  (((splitOnNl s.data).map pyStrip).filter (fun l => l ≠ [])).map
    (fun l =>
      if (['*', ' ']).isPrefixOf l then String.mk (l.drop 2 ++ (" (current)").data)
      else String.mk l)

/-- Embedding of the in-place update at the end of
`TerraformCLI.workspace_list`. -/
def workspace_list_post (J : Type) (r : TerraformResult J) : TerraformResult J :=
  if r.success then
    match r.stdout with
    | .text s => { r with stdout := .lines (workspace_list_lines s) }
    | _ => r
  else r

/-- Embedding of `TerraformCLI.show` (the command line is `show`, then the
optional plan file, then `-json`). -/
def terraform_show (J : Type) (decode : String → Option J) (tf : String)
    (plan_file : Option String) (p : ProcOutcome) : TerraformResult J :=
  json_post J decode (run_command J tf ("show" :: (plan_file.toList ++ ["-json"])) 300 p)

/-- Embedding of `TerraformCLI.output`; JSON decoding happens only when the
`-json` flag was requested. -/
def output (J : Type) (decode : String → Option J) (tf : String)
    (name : Option String) (jsonFlag : Bool) (p : ProcOutcome) : TerraformResult J :=
  let r := run_command J tf ("output" :: ((if jsonFlag then ["-json"] else []) ++ name.toList)) 300 p
  if jsonFlag then json_post J decode r else r

/-- Embedding of `TerraformCLI.state_list`. -/
def state_list (J : Type) (tf : String) (p : ProcOutcome) : TerraformResult J :=
  state_list_post J (run_command J tf ["state", "list"] 300 p)

/-- Embedding of `TerraformCLI.workspace_list`. -/
def workspace_list (J : Type) (tf : String) (p : ProcOutcome) : TerraformResult J :=
  workspace_list_post J (run_command J tf ["workspace", "list"] 300 p)

/-- Command line built by `TerraformCLI.destroy`. -/
def destroy_command (var_file : Option String) (var : List (String × String))
    (auto_approve : Bool) : List String :=
  ["destroy"] ++ (if auto_approve then ["-auto-approve"] else [])
    ++ (match var_file with | some f => ["-var-file", f] | none => [])
    ++ (var.map (fun kv => ["-var", kv.1 ++ "=" ++ kv.2])).flatten

/-- Embedding of `TerraformCLI.destroy`. -/
def destroy (J : Type) (tf : String) (var_file : Option String)
    (var : List (String × String)) (auto_approve : Bool) (p : ProcOutcome) :
    TerraformResult J :=
  run_command J tf (destroy_command var_file var auto_approve) 300 p

/-- Maximal leading run of decimal digits, mirroring the greedy `\d+`. -/
def takeDigits : List Char → List Char × List Char
  | [] => ([], [])
  | c :: cs =>
      if c.isDigit then
        let p := takeDigits cs
        (c :: p.1, p.2)
      else ([], c :: cs)

/-- Decimal value of a digit run, mirroring `int(match.group(1))`. -/
def digitsToNat (ds : List Char) : Nat :=
  ds.foldl (fun n c => n * 10 + (c.toNat - ('0').toNat)) 0

/-- Embedding of `re.search(r'(\d+) to add', line)` and its two siblings: scan
left to right for a digit run immediately followed by `pat` and return its
decimal value.  For these patterns the leftmost greedy regex match is exactly
the first maximal digit run whose end is immediately followed by `pat`
(backtracking inside the run cannot succeed because `pat` starts with a
space), so a left-to-right scan is faithful. -/
def searchNumBefore (pat : List Char) : List Char → Option Nat
  | [] => none
  | c :: cs =>
      if c.isDigit then
        let p := takeDigits (c :: cs)
        if pat.isPrefixOf p.2 then some (digitsToNat p.1)
        else searchNumBefore pat cs
      else searchNumBefore pat cs

/-- The `{add, change, destroy}` triple extracted from plan output. -/
structure PlanSummary where
  add : Nat
  change : Nat
  destroy : Nat
deriving DecidableEq

/-- Field updates performed inside the `if 'Plan:' in line` body of
`get_plan_summary`: each of the three patterns is searched independently and
updates its counter only when present. -/
def update_summary_line (l : List Char) (sm : PlanSummary) : PlanSummary :=
  let sm1 := match searchNumBefore (" to add").data l with
    | some n => { sm with add := n }
    | none => sm
  let sm2 := match searchNumBefore (" to change").data l with
    | some n => { sm1 with change := n }
    | none => sm1
  match searchNumBefore (" to destroy").data l with
  | some n => { sm2 with destroy := n }
  | none => sm2

/-- Loop of `get_plan_summary`: walk the lines, and at the first line
containing `Plan:` update the all-zero summary from it and stop (`break`). -/
def plan_scan : List (List Char) → PlanSummary
  | [] => { add := 0, change := 0, destroy := 0 }
  | l :: ls =>
      if hasSub ("Plan:").data l then
        update_summary_line l { add := 0, change := 0, destroy := 0 }
      else plan_scan ls

/-- Embedding of `TerraformCLI.get_plan_summary`. -/
def get_plan_summary (plan_output : String) : PlanSummary :=
  plan_scan (splitOnNl plan_output.data)

end Terraform

/-- The slice of `Config` (`src/core/config.py`) that the embedded components
consult. -/
structure Config where
  human_in_the_loop : Bool
deriving DecidableEq

namespace TaskEngine

/-- The single cache slot of `TaskEngine` for the parsed project
(`_project_cache` and `_cache_timestamp`); `α` is the snapshot type produced
by the external parser. -/
structure CacheState (α : Type) where
  project_cache : Option α
  cache_timestamp : Option Int
deriving DecidableEq

/-- The fixed TTL `TaskEngine._cache_ttl` (seconds). -/
def cache_ttl : Int := 60

/-- Result of one `get_project_data` call: the returned snapshot, the cache
state afterwards, and whether this call invoked the external parser. -/
structure GetResult (α : Type) where
  data : α
  state : CacheState α
  parsed : Bool
deriving DecidableEq

/-- Embedding of `TaskEngine.get_project_data`: serve the cached snapshot
unless a refresh is forced, the slot is empty, or the cache is older than the
TTL; otherwise invoke the external parser (`parse`, standing for
`self.parser.parse_project()` at the current time) and store the fresh result
with the current timestamp. -/
def get_project_data (α : Type) (parse : Int → α) (s : CacheState α) (now : Int)
    (force_refresh : Bool) : GetResult α :=
  let refreshed :=
    let d := parse now
    GetResult.mk d (CacheState.mk (some d) (some now)) true
  if force_refresh then refreshed
  else
    match s.project_cache, s.cache_timestamp with
    | some d, some ts => if now - ts > cache_ttl then refreshed else GetResult.mk d s false
    | _, _ => refreshed

/-- Status lifecycle of a task (`TaskStatus` in `src/core/task_engine.py`). -/
inductive TaskStatus where
  | pending
  | running
  | completed
  | failed
  | cancelled
deriving DecidableEq

/-- The statuses with no outgoing transition in the specified lifecycle. -/
def TaskStatus.isTerminal : TaskStatus → Bool
  | .completed => true
  | .failed => true
  | .cancelled => true
  | _ => false

/-- A task record (`Task` in `src/core/task_engine.py`); `R` is the type of
the stored result payload. -/
structure Task (R : Type) where
  id : String
  query : String
  status : TaskStatus
  result : Option R := none
  error : Option String := none
  progress : Rat := 0
  created_at : Option Int := none
  completed_at : Option Int := none
deriving DecidableEq

/-- Embedding of `TaskEngine.create_task`. -/
def create_task (R : Type) (task_id : String) (query : String) (now : Int) : Task R :=
  { id := task_id, query := query, status := .pending, created_at := some now }

/-- Embedding of `TaskEngine.execute_task` for the task named by `task_id`
once it has been found: the status is set to `RUNNING` unconditionally (the
method performs no check of the current status), the body either produces a
result (`outcome = ok`) or raises (`outcome = error`), and the task ends
`COMPLETED` with progress 1.0 or `FAILED` with the error message.  The
returned list is the sequence of statuses the task is assigned, in order, as
observed by the registered callbacks; intermediate progress updates inside
`_execute_simple_query` are elided because they do not touch the status. -/
def execute_task (R : Type) (t : Task R) (outcome : Except String R) (now : Int) :
    Task R × List TaskStatus :=
  let t1 := { t with status := TaskStatus.running }
  let t2 :=
    match outcome with
    | .ok r => { t1 with result := some r, status := TaskStatus.completed, progress := 1 }
    | .error e => { t1 with error := some e, status := TaskStatus.failed }
  let t3 := { t2 with completed_at := some now }
  (t3, [t1.status, t3.status])

/-- Embedding of `TaskEngine.cancel_task` for a task that exists: flip to
`CANCELLED` and report `True` only from `PENDING` or `RUNNING`, otherwise
leave the task unchanged and report `False`. -/
def cancel_task (R : Type) (t : Task R) : Task R × Bool :=
  if t.status = TaskStatus.pending ∨ t.status = TaskStatus.running then
    ({ t with status := TaskStatus.cancelled }, true)
  else (t, false)

end TaskEngine

namespace Hitl

/-- Approval status (`ApprovalStatus` in `src/core/human_in_the_loop.py`). -/
inductive ApprovalStatus where
  | pending
  | approved
  | rejected
  | modified
deriving DecidableEq

/-- One approval request record, as built by
`HumanInTheLoop.request_approval`; `I` is the tool-input type.  The
`modified_input` key is present only once the request is resolved. -/
structure ApprovalRecord (I : Type) where
  id : String
  tool_name : String
  tool_input : I
  status : ApprovalStatus
  risk_level : String
  modified_input : Option I := none
deriving DecidableEq

/-- State owned by a `HumanInTheLoop` instance: the pending map (a dict keyed
by approval id, in insertion order) and the append-only history list. -/
structure HitlState (I : Type) where
  pending_approvals : List (String × ApprovalRecord I)
  approval_history : List (ApprovalRecord I)
deriving DecidableEq

/-- The fixed critical-operation set of `HumanInTheLoop.requires_approval`. -/
def critical_operations : List String :=
  ["execute_terraform_apply", "execute_terraform_destroy", "terraform_apply", "terraform_destroy"]

/-- The production markers of `HumanInTheLoop.requires_approval`. -/
def production_indicators : List String :=
  ["prod", "production", "live", "main", "master"]

/-- Embedding of `HumanInTheLoop.requires_approval`.  `input_str` stands for
Python's `str(tool_input)`, the textual rendering of the argument dict that
the production check scans. -/
def requires_approval (cfg : Config) (tool_name : String) (input_str : String) : Bool :=
  if !cfg.human_in_the_loop then false
  else
    critical_operations.contains tool_name ||
      production_indicators.any (fun ind => hasSub ind.data (pyLower input_str.data))

/-- Embedding of `HumanInTheLoop._assess_risk_level`. -/
def assess_risk_level (tool_name : String) : String :=
  if hasSub ("destroy").data (pyLower tool_name.data) then "HIGH"
  else if hasSub ("apply").data (pyLower tool_name.data) then "MEDIUM"
  else "LOW"

/-- Embedding of `HumanInTheLoop._display_approval_request`: both branches of
the source return `(ApprovalStatus.APPROVED, approval_request["tool_input"])`
unconditionally (the interactive prompt is simulated). -/
def display_approval_request (I : Type) (cfg : Config) (req : ApprovalRecord I) :
    ApprovalStatus × Option I :=
  if cfg.human_in_the_loop then (ApprovalStatus.approved, some req.tool_input)
  else (ApprovalStatus.approved, some req.tool_input)

/-- Python dict insertion: overwrite the value when the key is present,
otherwise append the pair. -/
def dictInsert (I : Type) (m : List (String × I)) (k : String) (v : I) : List (String × I) :=
  if m.any (fun p => p.1 == k) then m.map (fun p => if p.1 == k then (k, v) else p)
  else m ++ [(k, v)]

/-- Python dict deletion of key `k`. -/
def dictErase (I : Type) (m : List (String × I)) (k : String) : List (String × I) :=
  m.filter (fun p => p.1 ≠ k)

/-- Embedding of `HumanInTheLoop.request_approval`, parameterised by the
resolution step (`display`) so that the single source call site
`self._display_approval_request(...)` is the instance
`display = display_approval_request cfg`.  The request is created `PENDING`,
put into the pending map, resolved, updated in place with the resolution and
the possibly modified input, appended to the history, and removed from the
pending map. -/
def request_approval_with (I : Type)
    (display : ApprovalRecord I → ApprovalStatus × Option I)
    (st : HitlState I) (tool_name : String) (tool_input : I) :
    ApprovalStatus × Option I × HitlState I :=
  let approval_id := tool_name ++ "_" ++ toString st.pending_approvals.length
  let req : ApprovalRecord I :=
    { id := approval_id, tool_name := tool_name, tool_input := tool_input,
      status := ApprovalStatus.pending, risk_level := assess_risk_level tool_name }
  let pending1 := dictInsert _ st.pending_approvals approval_id req
  let res := display req
  let req1 := { req with status := res.1, modified_input := res.2 }
  let st1 : HitlState I :=
    { pending_approvals := dictErase _ pending1 approval_id,
      approval_history := st.approval_history ++ [req1] }
  (res.1, res.2, st1)

/-- Embedding of `HumanInTheLoop.request_approval` with the built-in display
step. -/
def request_approval (I : Type) (cfg : Config) (st : HitlState I)
    (tool_name : String) (tool_input : I) : ApprovalStatus × Option I × HitlState I :=
  request_approval_with I (display_approval_request I cfg) st tool_name tool_input

end Hitl

namespace Claude

/-- Observable events along a tool-execution path: a `requires_approval`
consultation of the approval gate, an approval request raised to the user, and
an invocation of the Command Executor (the process spawn performed by
`TerraformCLI._run_command`), tagged with the full command line. -/
inductive ToolEvent where
  | gateCheck (tool_name : String)
  | approvalRequested (tool_name : String)
  | executorRun (command_line : String)
deriving DecidableEq

/-- Whether an event belongs to the approval gate. -/
def ToolEvent.isGate : ToolEvent → Bool
  | .gateCheck _ => true
  | .approvalRequested _ => true
  | .executorRun _ => false

/-- Whether an event is a Command Executor invocation. -/
def ToolEvent.isExecutor : ToolEvent → Bool
  | .executorRun _ => true
  | _ => false

/-- A registered tool handler: from the tool input it either returns a value
or raises with a message, and it reports the trace of events its execution
caused.  `I` is the tool-input type, `V` the success payload type. -/
def Handler (I V : Type) : Type := I → Except String V × List ToolEvent

/-- Outcome of `ClaudeProcessor._execute_tool`: the handler's value, the
`{"error": str(e), "tool": tool_name}` payload when the handler raised, or the
`{"error": ..., "available_tools": ...}` payload when no handler is
registered under the name.  The embedding is a total function into this type:
every failure is converted into a payload, none is re-raised. -/
inductive ToolOutcome (V : Type) where
  | ok (v : V)
  | handler_failed (error : String) (tool : String)
  | not_registered (error : String) (available_tools : List String)
deriving DecidableEq

/-- Embedding of `ClaudeProcessor.register_tool_handler` over the handler
dict (insertion-ordered, overwriting on re-registration). -/
def register_tool_handler (I V : Type) (m : List (String × Handler I V))
    (name : String) (h : Handler I V) : List (String × Handler I V) :=
  Hitl.dictInsert _ m name h

/-- Embedding of `ClaudeProcessor._execute_tool`, together with the trace of
events the dispatched handler caused.  The source consults only
`self.tool_handlers`; no approval-gate call occurs on this path. -/
def execute_tool (I V : Type) (handlers : List (String × Handler I V))
    (tool_name : String) (tool_input : I) : ToolOutcome V × List ToolEvent :=
  match handlers.lookup tool_name with
  | some h =>
      let r := h tool_input
      let out := match r.1 with
        | .ok v => ToolOutcome.ok v
        | .error e => ToolOutcome.handler_failed e tool_name
      (out, r.2)
  | none =>
      (ToolOutcome.not_registered ("Tool handler not registered: " ++ tool_name)
        (handlers.map Prod.fst), [])

/-- A content block of a model response (`TextBlock` / `ToolUseBlock`). -/
inductive Block (I : Type) where
  | text (s : String)
  | tool_use (id : String) (name : String) (input : I)
deriving DecidableEq

/-- A tool-result block sent back to the model, carrying the id of the tool
call it answers. -/
structure ToolResultBlock (V : Type) where
  tool_use_id : String
  content : ToolOutcome V
deriving DecidableEq

/-- A conversation-history entry of `ClaudeProcessor`. -/
inductive Msg (I V : Type) where
  | user (text : String)
  | assistantText (text : String)
  | assistantBlocks (content : List (Block I))
  | toolResults (content : List (ToolResultBlock V))
deriving DecidableEq

/-- A model-service response: the stop reason string and the content blocks. -/
structure Response (I : Type) where
  stop_reason : String
  content : List (Block I)
deriving DecidableEq

/-- Embedding of `ClaudeProcessor._extract_text_from_response` (thinking
content is tracked separately and never returned as the primary answer). -/
def extract_text (I : Type) (resp : Response I) : String :=
  let parts := resp.content.filterMap (fun b => match b with
    | Block.text s => some s
    | _ => none)
  if parts.isEmpty then "I couldn't generate a response."
  else String.intercalate "\n" parts

/-- Tool results collected for the tool-use blocks of a response, in request
order, as `_handle_tool_use` builds them. -/
def collect_tool_results (I V : Type) (handlers : List (String × Handler I V))
    (blocks : List (Block I)) : List (ToolResultBlock V) :=
  blocks.filterMap (fun b => match b with
    | Block.tool_use id name input =>
        some (ToolResultBlock.mk id (execute_tool I V handlers name input).1)
    | _ => none)

/-- Embedding of `ClaudeProcessor._handle_tool_use`, written with explicit
fuel because the source recursion carries no bound of its own: the source
executes the tools of the current response, appends the assistant turn and the
tool-result turn to the history, asks the model service (`svc`) again, and
recurses whenever the new stop reason is `tool_use`.  `none` means the
recursion has not produced an answer within `fuel` nested calls; the source
has no counterpart of the fuel and simply keeps recursing. -/
def handle_tool_use (I V : Type) (svc : List (Msg I V) → Response I)
    (handlers : List (String × Handler I V)) :
    List (Msg I V) → Response I → Nat → Option (String × List (Msg I V))
  | _, _, 0 => none
  | history, resp, fuel + 1 =>
      let tool_results := collect_tool_results I V handlers resp.content
      let history1 := history ++ [Msg.assistantBlocks resp.content, Msg.toolResults tool_results]
      let final := svc history1
      if final.stop_reason = "tool_use" then
        handle_tool_use I V svc handlers history1 final fuel
      else some (extract_text I final, history1)

/-- The token-usage counters of `ClaudeProcessor` together with the
conversation state that `export_conversation` persists; `M` is the type of a
history entry. -/
structure ClaudeState (M : Type) where
  conversation_history : List M
  terraform_context_cache : Option String
  total_input_tokens : Nat
  total_output_tokens : Nat
  total_cache_creation_tokens : Nat
  total_cache_read_tokens : Nat
deriving DecidableEq

/-- A freshly constructed `ClaudeProcessor`: empty history, no cached context,
all counters zero. -/
def freshClaudeState (M : Type) : ClaudeState M :=
  { conversation_history := [], terraform_context_cache := none,
    total_input_tokens := 0, total_output_tokens := 0,
    total_cache_creation_tokens := 0, total_cache_read_tokens := 0 }

/-- The integer fields of `ClaudeProcessor.get_token_usage_stats`.  The
estimated-cost fields are floating-point aggregates derived from these
counters; they are omitted here because `import_conversation` never reads
them. -/
structure TokenUsageStats where
  total_input_tokens : Nat
  total_output_tokens : Nat
  total_tokens : Nat
  cache_creation_tokens : Nat
  cache_read_tokens : Nat
  cache_savings_tokens : Nat
deriving DecidableEq

/-- Embedding of `ClaudeProcessor.get_token_usage_stats` (integer fields). -/
def get_token_usage_stats (M : Type) (s : ClaudeState M) : TokenUsageStats :=
  { total_input_tokens := s.total_input_tokens,
    total_output_tokens := s.total_output_tokens,
    total_tokens := s.total_input_tokens + s.total_output_tokens,
    cache_creation_tokens := s.total_cache_creation_tokens,
    cache_read_tokens := s.total_cache_read_tokens,
    cache_savings_tokens := s.total_cache_read_tokens }

/-- The JSON document written by `ClaudeProcessor.export_conversation`.  The
file serialisation itself round-trips JSON-representable data unchanged and is
not modelled. -/
structure ExportData (M : Type) where
  conversation_history : List M
  token_usage : TokenUsageStats
  terraform_context : Option String
deriving DecidableEq

/-- Embedding of `ClaudeProcessor.export_conversation`. -/
def export_conversation (M : Type) (s : ClaudeState M) : ExportData M :=
  { conversation_history := s.conversation_history,
    token_usage := get_token_usage_stats M s,
    terraform_context := s.terraform_context_cache }

/-- Embedding of `ClaudeProcessor.import_conversation`: the in-memory history,
context cache and the four counters are fully replaced from the file (the
`.get(..., default)` fallbacks of the source never fire on a file produced by
`export_conversation`, which always writes every key). -/
def import_conversation (M : Type) (s : ClaudeState M) (d : ExportData M) :
    ClaudeState M :=
  { s with
    conversation_history := d.conversation_history,
    terraform_context_cache := d.terraform_context,
    total_input_tokens := d.token_usage.total_input_tokens,
    total_output_tokens := d.token_usage.total_output_tokens,
    total_cache_creation_tokens := d.token_usage.cache_creation_tokens,
    total_cache_read_tokens := d.token_usage.cache_read_tokens }

end Claude

namespace Agent

/-- The result dict built by `TaskEngine.execute_terraform_destroy` (and its
siblings) from the CLI record. -/
structure ActionResult (J : Type) where
  action : String
  success : Bool
  output : Terraform.Stdout J
  error : Option String
  duration : Int
deriving DecidableEq

/-- `TerraformCLI._run_command` with its process spawn recorded as a Command
Executor event. -/
def run_command_traced (J : Type) (tf : String) (command : List String)
    (timeout : Int) (p : Terraform.ProcOutcome) :
    Terraform.TerraformResult J × List Claude.ToolEvent :=
  (Terraform.run_command J tf command timeout p,
    [Claude.ToolEvent.executorRun (Terraform.joinCmd (tf :: command))])

/-- Embedding of `TaskEngine.execute_terraform_destroy`: run
`TerraformCLI.destroy` (with no var file and no vars, as the task engine calls
it) and package the result dict. -/
def execute_terraform_destroy (J : Type) (tf : String) (auto_approve : Bool)
    (p : Terraform.ProcOutcome) : ActionResult J × List Claude.ToolEvent :=
  let r := run_command_traced J tf (Terraform.destroy_command none [] auto_approve) 300 p
  ({ action := "terraform_destroy", success := r.1.success, output := r.1.stdout,
     error := if r.1.success then none else some r.1.stderr,
     duration := r.1.duration }, r.2)

/-- Embedding of `TerraformAgent._handle_terraform_destroy_tool`: read the
`auto_approve` key of the tool input with default `False` and run the
task-engine operation.  The agent holds the `Config`, but — exactly as in the
source — this handler chain never consults `human_in_the_loop`, the
`HumanInTheLoop` instance or the `ToolInterceptor`. -/
def handle_terraform_destroy_tool (J : Type) (cfg : Config) (tf : String)
    (p : Terraform.ProcOutcome) : Claude.Handler (Option Bool) (ActionResult J) :=
  fun tool_input =>
    let auto_approve := tool_input.getD false
    let r := execute_terraform_destroy J tf auto_approve p
    (Except.ok r.1, r.2)

/-- The slice of `TerraformAgent._setup_claude_tools` that the destroy path
exercises: the handler registered under the name `execute_terraform_destroy`. -/
def destroy_registry (J : Type) (cfg : Config) (tf : String)
    (p : Terraform.ProcOutcome) : List (String × Claude.Handler (Option Bool) (ActionResult J)) :=
  Claude.register_tool_handler _ _ [] "execute_terraform_destroy"
    (handle_terraform_destroy_tool J cfg tf p)

/-- Embedding of `ToolInterceptor.intercept_tool_execution`, the approval
resolution supplied by `display` (instantiated with
`Hitl.display_approval_request cfg` for the source's call into
`self.hil.request_approval`).  `input_str` stands for `str(tool_input)`, read
by the production check.  The gate consultation and the approval request are
recorded as events, as is any Command Executor invocation inside
`tool_executor`.  In the repository this method has no caller: nothing routes
`ClaudeProcessor` tool execution through it. -/
def intercept_tool_execution (I V : Type) (cfg : Config) (st : Hitl.HitlState I)
    (tool_name : String) (input_str : String) (tool_input : I)
    (display : Hitl.ApprovalRecord I → Hitl.ApprovalStatus × Option I)
    (tool_executor : Claude.Handler I V) :
    Except String V × Hitl.HitlState I × List Claude.ToolEvent :=
  if Hitl.requires_approval cfg tool_name input_str then
    let res := Hitl.request_approval_with I display st tool_name tool_input
    let evs := [Claude.ToolEvent.gateCheck tool_name, Claude.ToolEvent.approvalRequested tool_name]
    match res.1, res.2.1 with
    | Hitl.ApprovalStatus.rejected, _ =>
        (Except.error ("Operation " ++ tool_name ++ " was rejected by human approval"),
          res.2.2, evs)
    | Hitl.ApprovalStatus.modified, some mi =>
        let r := tool_executor mi
        (r.1, res.2.2, evs ++ r.2)
    | Hitl.ApprovalStatus.pending, _ =>
        (Except.error ("Operation " ++ tool_name ++ " is pending approval"), res.2.2, evs)
    | _, _ =>
        let r := tool_executor tool_input
        (r.1, res.2.2, evs ++ r.2)
  else
    let r := tool_executor tool_input
    (r.1, st, Claude.ToolEvent.gateCheck tool_name :: r.2)

end Agent

/-- C9: exporting the conversation state and importing the exported document
into a freshly constructed agent reproduces the conversation history and all
four token counters (input, output, cache-creation, cache-read). -/
theorem export_import_round_trip (M : Type) (s : Claude.ClaudeState M) :
    let s2 := Claude.import_conversation M (Claude.freshClaudeState M)
      (Claude.export_conversation M s)
    s2.conversation_history = s.conversation_history ∧
    s2.total_input_tokens = s.total_input_tokens ∧
    s2.total_output_tokens = s.total_output_tokens ∧
    s2.total_cache_creation_tokens = s.total_cache_creation_tokens ∧
    s2.total_cache_read_tokens = s.total_cache_read_tokens :=
  ⟨rfl, rfl, rfl, rfl, rfl⟩

/-- C10: the built-in display step resolves every approval request as
APPROVED with the original tool input unchanged, so `request_approval` returns
`(APPROVED, tool_input)` for every request and the entry it appends to the
approval history carries status APPROVED and that unchanged input; no request
resolves to REJECTED, MODIFIED or PENDING on this path. -/
theorem request_approval_always_approves (I : Type) (cfg : Config)
    (st : Hitl.HitlState I) (tool_name : String) (tool_input : I) :
    let r := Hitl.request_approval I cfg st tool_name tool_input
    (∀ req : Hitl.ApprovalRecord I,
      Hitl.display_approval_request I cfg req =
        (Hitl.ApprovalStatus.approved, some req.tool_input)) ∧
    r.1 = Hitl.ApprovalStatus.approved ∧
    r.2.1 = some tool_input ∧
    r.2.2.approval_history.map (fun a => a.status) =
      st.approval_history.map (fun a => a.status) ++ [Hitl.ApprovalStatus.approved] ∧
    r.2.2.approval_history.map (fun a => a.modified_input) =
      st.approval_history.map (fun a => a.modified_input) ++ [some tool_input] := by
  refine ⟨fun req => ?_, ?_, ?_, ?_, ?_⟩ <;>
    simp [Hitl.request_approval, Hitl.request_approval_with, Hitl.display_approval_request]

/-- C8: dispatching a tool name with no registered handler does not raise; it
returns the structured payload that names the missing tool and lists every
currently registered tool name. -/
theorem execute_tool_unknown_name_payload (I V : Type)
    (handlers : List (String × Claude.Handler I V)) (tool_name : String)
    (tool_input : I) (h : handlers.lookup tool_name = none) :
    Claude.execute_tool I V handlers tool_name tool_input =
      (Claude.ToolOutcome.not_registered ("Tool handler not registered: " ++ tool_name)
        (handlers.map Prod.fst), []) := by
  simp [Claude.execute_tool, h]

/-- A small registry holding one registered tool, used to evaluate the
unknown-tool dispatch at a concrete input. -/
def demo_handlers : List (String × Claude.Handler Unit Unit) :=
  Claude.register_tool_handler Unit Unit [] "execute_terraform_plan"
    (fun _ => (Except.ok (), []))

/-- Witness for C8: dispatching `nonexistent_tool` against a registry holding
only `execute_terraform_plan` yields the structured payload. -/
theorem execute_tool_unknown_name_payload_witness :
    Claude.execute_tool Unit Unit demo_handlers "nonexistent_tool" () =
      (Claude.ToolOutcome.not_registered "Tool handler not registered: nonexistent_tool"
        ["execute_terraform_plan"], []) := by
  have h := execute_tool_unknown_name_payload Unit Unit demo_handlers "nonexistent_tool" () rfl
  rw [h]
  decide

/-- C5: a command whose process outlives the configured timeout yields the
synthetic record with `success=false`, `exit_code=-1`, and a stderr message
that contains "timed out". -/
theorem run_command_timeout_result (J : Type) (tf : String) (command : List String)
    (timeout elapsed rc : Int) (out err : String) (h : timeout < elapsed) :
    let r : Terraform.TerraformResult J := Terraform.run_command J tf command timeout
      (Terraform.ProcOutcome.completed elapsed rc out err)
    r.success = false ∧ r.return_code = -1 ∧
    r.stderr = "Command timed out after " ++ toString timeout ++ " seconds" ∧
    strContains r.stderr "timed out" := by
  have hr : Terraform.run_command J tf command timeout
      (Terraform.ProcOutcome.completed elapsed rc out err) =
      { success := false, return_code := -1, stdout := Terraform.Stdout.text "",
        stderr := "Command timed out after " ++ toString timeout ++ " seconds",
        command := Terraform.joinCmd (tf :: command), duration := timeout } := by
    simp [Terraform.run_command, h]
  refine ⟨by rw [hr], by rw [hr], by rw [hr], ?_⟩
  refine ⟨("Command ").data, (" after " ++ toString timeout ++ " seconds").data, ?_⟩
  rw [hr]
  show ("Command timed out after " ++ toString timeout ++ " seconds").data = _
  simp [String.data_append, List.append_assoc]

/-- Witness for C5: a 1-second timeout on a command that takes 5 seconds. -/
theorem run_command_timeout_result_witness :
    (Terraform.run_command Unit "terraform" ["apply"] 1
        (Terraform.ProcOutcome.completed 5 0 "" "")).success = false ∧
    (Terraform.run_command Unit "terraform" ["apply"] 1
        (Terraform.ProcOutcome.completed 5 0 "" "")).return_code = -1 ∧
    (Terraform.run_command Unit "terraform" ["apply"] 1
        (Terraform.ProcOutcome.completed 5 0 "" "")).stderr =
      "Command timed out after " ++ toString (1 : Int) ++ " seconds" ∧
    strContains (Terraform.run_command Unit "terraform" ["apply"] 1
        (Terraform.ProcOutcome.completed 5 0 "" "")).stderr "timed out" :=
  run_command_timeout_result Unit "terraform" ["apply"] 1 5 0 "" "" (by decide)

/-- C2: `_handle_tool_use` carries no recursion bound.  Against a model
service that answers every call with the `tool_use` stop reason, the
recursion never produces an answer: for every fuel bound, every starting
history and every starting response, the fuel runs out first.  The source has
no counterpart of the fuel (and no configured maximum depth at all); it
simply keeps recursing. -/
theorem handle_tool_use_never_halts_on_constant_tool_use (I V : Type)
    (svc : List (Claude.Msg I V) → Claude.Response I)
    (handlers : List (String × Claude.Handler I V))
    (hsvc : ∀ hist : List (Claude.Msg I V), (svc hist).stop_reason = "tool_use") :
    ∀ (fuel : Nat) (history : List (Claude.Msg I V)) (resp : Claude.Response I),
      Claude.handle_tool_use I V svc handlers history resp fuel = none := by
  intro fuel
  induction fuel with
  | zero => intro history resp; rfl
  | succ n ih =>
      intro history resp
      simp [Claude.handle_tool_use, hsvc, ih]

/-- A mocked model service that always requests a tool. -/
def const_tool_use_service : List (Claude.Msg Unit Unit) → Claude.Response Unit :=
  fun _ => { stop_reason := "tool_use", content := [] }

/-- Witness for C2: against the constant tool-use service, five levels of
fuel are exhausted without an answer. -/
theorem handle_tool_use_never_halts_witness :
    Claude.handle_tool_use Unit Unit const_tool_use_service [] []
      { stop_reason := "tool_use", content := [] } 5 = none :=
  handle_tool_use_never_halts_on_constant_tool_use Unit Unit const_tool_use_service []
    (fun _ => rfl) 5 [] { stop_reason := "tool_use", content := [] }

/-- C1, evaluated at the failing input: a tool call requesting
`execute_terraform_destroy` while `human_in_the_loop` is enabled, executed the
way `ClaudeProcessor._handle_tool_use` executes it (through `_execute_tool`
and the handler registered by `TerraformAgent._setup_claude_tools`).  The
event trace contains no approval-gate event at all and exactly one Command
Executor invocation, which succeeds: the gate never runs before the executor
and a rejection can never abort the call on this path. -/
theorem destroy_tool_call_runs_executor_without_gate :
    let cfg : Config := { human_in_the_loop := true }
    let p := Terraform.ProcOutcome.completed 2 0 "Destroy complete!" ""
    let r := Claude.execute_tool (Option Bool) (Agent.ActionResult Unit)
      (Agent.destroy_registry Unit cfg "terraform" p)
      "execute_terraform_destroy" (some false)
    r.2.filter Claude.ToolEvent.isGate = [] ∧
    (r.2.filter Claude.ToolEvent.isExecutor).length = 1 ∧
    r.2 = [Claude.ToolEvent.executorRun "terraform destroy"] ∧
    r.1 = Claude.ToolOutcome.ok
      { action := "terraform_destroy", success := true,
        output := Terraform.Stdout.text "Destroy complete!",
        error := none, duration := 2 } := by
  decide

/-- C3, counterexample: the record constructed by `_run_command` for a
successful `state list` invocation is changed afterwards by `state_list`'s
post-processing step, which overwrites its `stdout` field with the parsed
line list. -/
theorem state_list_rewrites_stdout_after_construction :
    let r0 := Terraform.run_command Unit "terraform" ["state", "list"] 300
      (Terraform.ProcOutcome.completed 1 0 "aws_instance.web\naws_s3_bucket.data\n" "")
    Terraform.state_list_post Unit r0 ≠ r0 ∧
    (Terraform.state_list_post Unit r0).stdout =
      Terraform.Stdout.lines ["aws_instance.web", "aws_s3_bucket.data"] ∧
    r0.stdout = Terraform.Stdout.text "aws_instance.web\naws_s3_bucket.data\n" ∧
    r0.success = true := by
  decide

/-- C3, amended: the post-processing steps of `show`/`output` (JSON decode)
and `state_list`/`workspace_list` (line split) rewrite only the `stdout` field
of the result record; `success`, `return_code`, `stderr`, `command` and
`duration` are never touched, and a failed record is returned entirely
unchanged.  (`workspace_list_post` behaves like `state_list_post` and is
covered by the same field equations.) -/
theorem post_processing_touches_only_stdout (J : Type) (decode : String → Option J)
    (r : Terraform.TerraformResult J) :
    ((Terraform.json_post J decode r).success = r.success ∧
      (Terraform.json_post J decode r).return_code = r.return_code ∧
      (Terraform.json_post J decode r).stderr = r.stderr ∧
      (Terraform.json_post J decode r).command = r.command ∧
      (Terraform.json_post J decode r).duration = r.duration) ∧
    ((Terraform.state_list_post J r).success = r.success ∧
      (Terraform.state_list_post J r).return_code = r.return_code ∧
      (Terraform.state_list_post J r).stderr = r.stderr ∧
      (Terraform.state_list_post J r).command = r.command ∧
      (Terraform.state_list_post J r).duration = r.duration) ∧
    ((Terraform.workspace_list_post J r).success = r.success ∧
      (Terraform.workspace_list_post J r).return_code = r.return_code ∧
      (Terraform.workspace_list_post J r).stderr = r.stderr ∧
      (Terraform.workspace_list_post J r).command = r.command ∧
      (Terraform.workspace_list_post J r).duration = r.duration) ∧
    (r.success = false →
      Terraform.json_post J decode r = r ∧
      Terraform.state_list_post J r = r ∧
      Terraform.workspace_list_post J r = r) := by
  obtain ⟨succ, rc, sout, serr, cmd, dur⟩ := r
  cases succ with
  | false =>
      simp [Terraform.json_post, Terraform.state_list_post, Terraform.workspace_list_post]
  | true =>
      cases sout with
      | text s =>
          cases hdec : decode s <;>
            simp [Terraform.json_post, Terraform.state_list_post,
              Terraform.workspace_list_post, hdec]
      | json v =>
          simp [Terraform.json_post, Terraform.state_list_post, Terraform.workspace_list_post]
      | lines xs =>
          simp [Terraform.json_post, Terraform.state_list_post, Terraform.workspace_list_post]

/-- Witness for the amended C3: a failed `state list` record passes through
its post-processing step unchanged. -/
theorem post_processing_touches_only_stdout_witness :
    Terraform.state_list_post Unit
      { success := false, return_code := 1, stdout := Terraform.Stdout.text "boom",
        stderr := "error", command := "terraform state list", duration := 1 } =
      { success := false, return_code := 1, stdout := Terraform.Stdout.text "boom",
        stderr := "error", command := "terraform state list", duration := 1 } :=
  ((post_processing_touches_only_stdout Unit (fun _ => none)
    { success := false, return_code := 1, stdout := Terraform.Stdout.text "boom",
      stderr := "error", command := "terraform state list", duration := 1 }).2.2.2 rfl).2.1

/-- C4, counterexample: `execute_task` performs no status check before
dispatch, so dispatching a task that is already in the terminal status
CANCELLED moves it to RUNNING (a non-terminal status) and then re-runs it to
COMPLETED — a transition out of a terminal state. -/
theorem execute_task_leaves_terminal_status :
    let t : TaskEngine.Task Unit :=
      { id := "t1", query := "destroy it", status := TaskEngine.TaskStatus.cancelled }
    TaskEngine.TaskStatus.isTerminal t.status = true ∧
    (TaskEngine.execute_task Unit t (Except.ok ()) 7).2 =
      [TaskEngine.TaskStatus.running, TaskEngine.TaskStatus.completed] ∧
    TaskEngine.TaskStatus.isTerminal TaskEngine.TaskStatus.running = false := by
  decide

/-- C4, amended: dispatch via `execute_task` always assigns RUNNING and then
the terminal COMPLETED (success) or FAILED (raised), so a PENDING task follows
PENDING → RUNNING → COMPLETED/FAILED; `cancel_task` moves a task to CANCELLED
only from PENDING or RUNNING and leaves every terminal task unchanged; but
`execute_task` itself does not guard on the current status, so re-dispatching
an already-terminal task re-enters RUNNING (the counterexample above). -/
theorem task_lifecycle_amended (R : Type) :
    (∀ (t : TaskEngine.Task R) (res : R) (now : Int),
      (TaskEngine.execute_task R t (Except.ok res) now).2 =
        [TaskEngine.TaskStatus.running, TaskEngine.TaskStatus.completed] ∧
      (TaskEngine.execute_task R t (Except.ok res) now).1.status =
        TaskEngine.TaskStatus.completed) ∧
    (∀ (t : TaskEngine.Task R) (e : String) (now : Int),
      (TaskEngine.execute_task R t (Except.error e) now).2 =
        [TaskEngine.TaskStatus.running, TaskEngine.TaskStatus.failed] ∧
      (TaskEngine.execute_task R t (Except.error e) now).1.status =
        TaskEngine.TaskStatus.failed) ∧
    (∀ t : TaskEngine.Task R, TaskEngine.TaskStatus.isTerminal t.status = true →
      TaskEngine.cancel_task R t = (t, false)) ∧
    (∀ t : TaskEngine.Task R,
      t.status = TaskEngine.TaskStatus.pending ∨
        t.status = TaskEngine.TaskStatus.running →
      TaskEngine.cancel_task R t =
        ({ t with status := TaskEngine.TaskStatus.cancelled }, true)) := by
  refine ⟨fun t res now => ⟨rfl, rfl⟩, fun t e now => ⟨rfl, rfl⟩,
    fun t ht => ?_, fun t ht => ?_⟩
  · unfold TaskEngine.cancel_task
    rw [if_neg]
    intro hc
    rcases hc with hp | hp <;> rw [hp] at ht <;>
      simp [TaskEngine.TaskStatus.isTerminal] at ht
  · unfold TaskEngine.cancel_task
    rw [if_pos ht]

/-- Witness for the amended C4: cancelling a COMPLETED task changes nothing
and reports `False`. -/
theorem task_lifecycle_amended_witness :
    TaskEngine.cancel_task Unit
      { id := "t2", query := "plan", status := TaskEngine.TaskStatus.completed } =
      ({ id := "t2", query := "plan", status := TaskEngine.TaskStatus.completed }, false) :=
  (task_lifecycle_amended Unit).2.2.1 _ rfl

/-- C6, counterexample: the summary is read from the first line containing
`Plan:`; a plan output that also contains the exact line
`Plan: 3 to add, 1 to change, 0 to destroy.` later on is summarised from the
earlier line instead. -/
theorem plan_summary_first_plan_line_wins :
    let s := "Plan: 5 to add\nPlan: 3 to add, 1 to change, 0 to destroy."
    (splitOnNl s.data).contains ("Plan: 3 to add, 1 to change, 0 to destroy.").data = true ∧
    Terraform.get_plan_summary s = { add := 5, change := 0, destroy := 0 } ∧
    Terraform.get_plan_summary s ≠ { add := 3, change := 1, destroy := 0 } := by
  decide

/-- The three counter updates at an all-zero summary are exactly the three
independent pattern extractions with default 0. -/
theorem update_summary_line_zero (l : List Char) :
    Terraform.update_summary_line l { add := 0, change := 0, destroy := 0 } =
      { add := (Terraform.searchNumBefore (" to add").data l).getD 0,
        change := (Terraform.searchNumBefore (" to change").data l).getD 0,
        destroy := (Terraform.searchNumBefore (" to destroy").data l).getD 0 } := by
  cases ha : Terraform.searchNumBefore (" to add").data l <;>
    cases hc : Terraform.searchNumBefore (" to change").data l <;>
      cases hd : Terraform.searchNumBefore (" to destroy").data l <;>
        simp [Terraform.update_summary_line, ha, hc, hd]

/-- The scan with `break` returns the extraction from the first matching
line, or all zeros when no line matches. -/
theorem plan_scan_eq_find (ls : List (List Char)) :
    Terraform.plan_scan ls =
      match ls.find? (fun l => hasSub ("Plan:").data l) with
      | none => { add := 0, change := 0, destroy := 0 }
      | some l => Terraform.update_summary_line l { add := 0, change := 0, destroy := 0 } := by
  induction ls with
  | nil => rfl
  | cons l ls ih =>
      cases h : hasSub ("Plan:").data l <;>
        simp [Terraform.plan_scan, List.find?_cons, h, ih]

/-- C6, amended: the exact spec line yields `{add: 3, change: 1, destroy: 0}`;
an input none of whose lines contains `Plan:` yields all zeros; and in
general the summary comes from the first line containing `Plan:`, each of the
three counters extracted independently from that line, defaulting to 0 when
its pattern is absent. -/
theorem get_plan_summary_characterisation :
    Terraform.get_plan_summary "Plan: 3 to add, 1 to change, 0 to destroy." =
      { add := 3, change := 1, destroy := 0 } ∧
    (∀ s : String,
      (splitOnNl s.data).all (fun l => !(hasSub ("Plan:").data l)) = true →
      Terraform.get_plan_summary s = { add := 0, change := 0, destroy := 0 }) ∧
    (∀ s : String,
      Terraform.get_plan_summary s =
        match (splitOnNl s.data).find? (fun l => hasSub ("Plan:").data l) with
        | none => { add := 0, change := 0, destroy := 0 }
        | some l =>
            { add := (Terraform.searchNumBefore (" to add").data l).getD 0,
              change := (Terraform.searchNumBefore (" to change").data l).getD 0,
              destroy := (Terraform.searchNumBefore (" to destroy").data l).getD 0 }) := by
  refine ⟨by decide, ?_, ?_⟩
  · intro s h
    have hf : (splitOnNl s.data).find? (fun l => hasSub ("Plan:").data l) = none := by
      rw [List.find?_eq_none]
      intro x hx
      have hx2 := List.all_eq_true.mp h x hx
      simpa using hx2
    unfold Terraform.get_plan_summary
    rw [plan_scan_eq_find, hf]
  · intro s
    unfold Terraform.get_plan_summary
    rw [plan_scan_eq_find]
    cases (splitOnNl s.data).find? (fun l => hasSub ("Plan:").data l) with
    | none => rfl
    | some l => simp [update_summary_line_zero]

/-- Witness for the amended C6: an output with no `Plan:` line summarises to
all zeros. -/
theorem get_plan_summary_characterisation_witness :
    Terraform.get_plan_summary "No changes. Your infrastructure matches the configuration." =
      { add := 0, change := 0, destroy := 0 } :=
  get_plan_summary_characterisation.2.1 _ (by decide)

/-- After any `get_project_data` call the cache slot holds the returned
snapshot together with some timestamp. -/
theorem get_project_data_state_shape (α : Type) (parse : Int → α) (pc : Option α)
    (cts : Option Int) (now : Int) (force : Bool) :
    ∃ ts : Int,
      (TaskEngine.get_project_data α parse { project_cache := pc, cache_timestamp := cts }
        now force).state =
        { project_cache := some (TaskEngine.get_project_data α parse
            { project_cache := pc, cache_timestamp := cts } now force).data,
          cache_timestamp := some ts } := by
  cases force with
  | true => exact ⟨now, rfl⟩
  | false =>
      cases pc with
      | none => exact ⟨now, rfl⟩
      | some d =>
          cases cts with
          | none => exact ⟨now, rfl⟩
          | some ts =>
              by_cases hgt : now - ts > TaskEngine.cache_ttl
              · exact ⟨now, by simp [TaskEngine.get_project_data, hgt]⟩
              · exact ⟨ts, by simp [TaskEngine.get_project_data, hgt]⟩

/-- C7: a second non-forced `get_project_data` call made within the TTL of
the cached parse returns the same snapshot as the first call and does not
invoke the parser; a forced call, or a non-forced call made strictly after
the TTL has elapsed since the cached timestamp, invokes the parser (exactly
once — each call performs at most one parse by construction) and returns its
fresh result. -/
theorem project_cache_ttl_behavior (α : Type) (parse : Int → α)
    (pc : Option α) (cts : Option Int) (t0 t1 : Int)
    (h : t1 - ((TaskEngine.get_project_data α parse
        { project_cache := pc, cache_timestamp := cts } t0 false).state.cache_timestamp.getD 0) ≤
      TaskEngine.cache_ttl) :
    ((TaskEngine.get_project_data α parse
        (TaskEngine.get_project_data α parse
          { project_cache := pc, cache_timestamp := cts } t0 false).state t1 false).data =
      (TaskEngine.get_project_data α parse
        { project_cache := pc, cache_timestamp := cts } t0 false).data ∧
      (TaskEngine.get_project_data α parse
        (TaskEngine.get_project_data α parse
          { project_cache := pc, cache_timestamp := cts } t0 false).state t1 false).parsed =
        false) ∧
    (∀ (s2 : TaskEngine.CacheState α) (now : Int),
      (TaskEngine.get_project_data α parse s2 now true).parsed = true ∧
      (TaskEngine.get_project_data α parse s2 now true).data = parse now) ∧
    (∀ (s2 : TaskEngine.CacheState α) (now ts : Int),
      s2.cache_timestamp = some ts → TaskEngine.cache_ttl < now - ts →
      (TaskEngine.get_project_data α parse s2 now false).parsed = true ∧
      (TaskEngine.get_project_data α parse s2 now false).data = parse now) := by
  obtain ⟨ts, hst⟩ := get_project_data_state_shape α parse pc cts t0 false
  rw [hst] at h
  simp only [Option.getD_some] at h
  refine ⟨?_, fun s2 now => ⟨rfl, rfl⟩, ?_⟩
  · rw [hst]
    constructor <;> simp [TaskEngine.get_project_data, not_lt.mpr h]
  · intro s2 now ts2 hts hgt
    obtain ⟨pc2, cts2⟩ := s2
    simp only at hts
    subst hts
    cases pc2 <;> simp [TaskEngine.get_project_data, hgt]

/-- Witness for C7: an empty cache is filled at time 0; a second call at time
30 serves the same snapshot without parsing. -/
theorem project_cache_ttl_behavior_witness :
    (TaskEngine.get_project_data Int (fun t => t)
      (TaskEngine.get_project_data Int (fun t => t)
        { project_cache := none, cache_timestamp := none } 0 false).state 30 false).parsed =
      false ∧
    (TaskEngine.get_project_data Int (fun t => t)
      (TaskEngine.get_project_data Int (fun t => t)
        { project_cache := none, cache_timestamp := none } 0 false).state 30 false).data =
      (TaskEngine.get_project_data Int (fun t => t)
        { project_cache := none, cache_timestamp := none } 0 false).data := by
  have h := project_cache_ttl_behavior Int (fun t => t) none none 0 30 (by decide)
  exact ⟨h.1.2, h.1.1⟩

/-- The dormant interceptor would implement the gate contract: when approval
is required and the resolution step rejects, `intercept_tool_execution`
surfaces an error and its trace contains no Command Executor invocation.  No
code in the repository calls it. -/
theorem intercept_rejected_never_runs_executor (I V : Type) (cfg : Config)
    (st : Hitl.HitlState I) (tool_name : String) (input_str : String) (tool_input : I)
    (display : Hitl.ApprovalRecord I → Hitl.ApprovalStatus × Option I)
    (tool_executor : Claude.Handler I V)
    (hreq : Hitl.requires_approval cfg tool_name input_str = true)
    (hrej : ∀ req : Hitl.ApprovalRecord I,
      (display req).1 = Hitl.ApprovalStatus.rejected) :
    (Agent.intercept_tool_execution I V cfg st tool_name input_str tool_input
        display tool_executor).1 =
      Except.error ("Operation " ++ tool_name ++ " was rejected by human approval") ∧
    ((Agent.intercept_tool_execution I V cfg st tool_name input_str tool_input
        display tool_executor).2.2.filter Claude.ToolEvent.isExecutor) = [] := by
  constructor <;>
    simp [Agent.intercept_tool_execution, hreq, Hitl.request_approval_with, hrej,
      Claude.ToolEvent.isExecutor]

end Spec2Proof
